import Mathlib

/-!
Shallow embedding of the credential lifecycle core of the vendora001 service
(`src/routes/auth.js`, `src/utils/failedLoginTracker.js` — provided as
`src/unnamed/part_000` — and `src/utils/tempPasscodeTracker.js`).

Conventions of the embedding:
* JS `Map` objects become association lists `List (String × α)` with unique
  keys maintained by `mapSet`/`mapErase`.
* JS timestamps (`Date.now()`, milliseconds) become `Int`, so that the
  subtractions `now - record.lastAttempt` keep JS number semantics.
* Nullable request/DB fields become `Option String`; JS truthiness of such a
  field (`!x`) is `falsy` (absent or empty string).
* bcrypt is abstracted: handlers are parameterized by a comparison function
  `cmp : String → String → Bool` (for `bcrypt.compare`) and a hashing function
  `hash : String → String` (for `bcrypt.hash`).
* Stateful route handlers become pure functions returning the result together
  with the updated state (tracker map and/or database rows).
-/

/-- JS truthiness test for an optional string request/DB field:
`!x` is true when the field is absent, `null`, or the empty string. -/
def falsy : Option String → Bool
  | none => true
  | some s => s == ""

/-- Lookup in a JS-`Map`-like association list. -/
def mapGet {α : Type} (m : List (String × α)) (k : String) : Option α :=
  match m with
  | [] => none
  | (k2, v) :: t => if k2 = k then some v else mapGet t k

/-- `Map.set`: replace the value at an existing key, else append. -/
def mapSet {α : Type} (m : List (String × α)) (k : String) (v : α) :
    List (String × α) :=
  match m with
  | [] => [(k, v)]
  | (k2, v2) :: t => if k2 = k then (k, v) :: t else (k2, v2) :: mapSet t k v

/-- `Map.delete`: remove every binding of the key (keys are unique anyway). -/
def mapErase {α : Type} (m : List (String × α)) (k : String) :
    List (String × α) :=
  m.filter (fun p => p.1 != k)

-- ===========================================================================
-- failedLoginTracker (src/unnamed/part_000)
-- ===========================================================================

/-- One entry of the `failedAttempts` map: `{count, lastAttempt}`. -/
structure FailedRecord where
  count : Nat
  lastAttempt : Int
deriving Repr, DecidableEq

abbrev FailedMap := List (String × FailedRecord)

/-- `MAX_ATTEMPTS = 7`. -/
def MAX_ATTEMPTS : Nat := 7

/-- `RESET_TIME = 15 * 60 * 1000` (15 minutes, in ms). -/
def RESET_TIME : Int := 15 * 60 * 1000

/-- `getFailedAttempts(username)`: 0 when no record; when the last attempt is
older than `RESET_TIME` the record is deleted (lazy expiry) and 0 returned;
otherwise the stored count.  Returns the count together with the
possibly-mutated map. -/
def getFailedAttempts (now : Int) (m : FailedMap) (u : String) :
    Nat × FailedMap :=
  match mapGet m u with
  | none => (0, m)
  | some r =>
    if RESET_TIME < now - r.lastAttempt then (0, mapErase m u)
    else (r.count, m)

/-- `incrementFailedAttempts(username)`: re-read the current count (with its
lazy-expiry side effect), then store `{count: current + 1, lastAttempt: now}`. -/
def incrementFailedAttempts (now : Int) (m : FailedMap) (u : String) :
    FailedMap :=
  let res := getFailedAttempts now m u
  mapSet res.2 u ⟨res.1 + 1, now⟩

/-- `resetFailedAttempts(username)`: delete the entry. -/
def resetFailedAttempts (m : FailedMap) (u : String) : FailedMap :=
  mapErase m u

/-- `isBlocked(username)`: `getFailedAttempts(username) >= MAX_ATTEMPTS`,
with `getFailedAttempts`'s lazy-expiry side effect on the map. -/
def isBlocked (now : Int) (m : FailedMap) (u : String) : Bool × FailedMap :=
  let res := getFailedAttempts now m u
  (decide (MAX_ATTEMPTS ≤ res.1), res.2)

-- ===========================================================================
-- tempPasscodeTracker (src/utils/tempPasscodeTracker.js)
-- ===========================================================================

/-- One entry of the `resendCounts` map: `{count, windowStart}`. -/
structure ResendRecord where
  count : Nat
  windowStart : Int
deriving Repr, DecidableEq

abbrev ResendMap := List (String × ResendRecord)

/-- `RESEND_WINDOW = 60 * 60 * 1000` (1 hour, in ms). -/
def RESEND_WINDOW : Int := 60 * 60 * 1000

/-- `MAX_RESENDS_PER_HOUR = 3`. -/
def MAX_RESENDS_PER_HOUR : Int := 3

/-- Result shape of `canResend`. -/
structure ResendStatus where
  canResend : Bool
  remainingResends : Int
  waitTime : Int
deriving Repr, DecidableEq

/-- `Math.ceil(a / b)` for JS numbers, at integer arguments with `b > 0`:
the negated floor division of the negation. -/
def jsCeilDiv (a b : Int) : Int := -(Int.ediv (-a) b)

/-- `canResend(pl)`: full quota when never seen or the window has expired
(with lazy deletion); otherwise `remaining = MAX_RESENDS_PER_HOUR - count`
(JS number, may go negative before clamping), allowed iff positive, and
`waitTime = ceil((windowStart + RESEND_WINDOW - now) / 60000)` minutes. -/
def canResend (now : Int) (m : ResendMap) (pl : String) :
    ResendStatus × ResendMap :=
  match mapGet m pl with
  | none => (⟨true, MAX_RESENDS_PER_HOUR, 0⟩, m)
  | some r =>
    if RESEND_WINDOW < now - r.windowStart then
      (⟨true, MAX_RESENDS_PER_HOUR, 0⟩, mapErase m pl)
    else
      let remaining : Int := MAX_RESENDS_PER_HOUR - (r.count : Int)
      let wait : Int := jsCeilDiv (r.windowStart + RESEND_WINDOW - now) 60000
      (⟨decide (0 < remaining), max 0 remaining, wait⟩, m)

/-- `incrementResendCount(pl)`: start a fresh window `{count: 1,
windowStart: now}` when no entry or the window has expired, else increment
the count in place (the `windowStart` is kept). -/
def incrementResendCount (now : Int) (m : ResendMap) (pl : String) :
    ResendMap :=
  match mapGet m pl with
  | none => mapSet m pl ⟨1, now⟩
  | some r =>
    if RESEND_WINDOW < now - r.windowStart then mapSet m pl ⟨1, now⟩
    else mapSet m pl ⟨r.count + 1, r.windowStart⟩

-- ===========================================================================
-- String primitives (kernel-computable models of the JS string operations)
-- ===========================================================================

/-- Splitting a character list at every occurrence of a separator character;
`acc` holds the (reversed) current segment.  Models JS `String.split(sep)`
for a one-character separator: `"".split(sep) = [""]`, a leading, trailing
or doubled separator produces empty segments. -/
def splitCharAux (sep : Char) : List Char → List Char → List (List Char)
  | [], acc => [acc.reverse]
  | c :: rest, acc =>
    if c = sep then acc.reverse :: splitCharAux sep rest []
    else splitCharAux sep rest (c :: acc)

/-- JS `String.split(sep)` for a one-character separator. -/
def jsSplit (sep : Char) (s : String) : List String :=
  (splitCharAux sep s.data []).map String.mk

/-- JS `String.trim()`: strip whitespace from both ends. -/
def jsTrim (s : String) : String :=
  String.mk
    (((s.data.dropWhile Char.isWhitespace).reverse.dropWhile
        Char.isWhitespace).reverse)

/-- Does `s` start with the segment `pat`? -/
def charsStartWith : List Char → List Char → Bool
  | [], _ => true
  | _ :: _, [] => false
  | a :: as, b :: bs => a == b && charsStartWith as bs

/-- Does `s` contain the segment `pat` anywhere? -/
def charsContain (pat : List Char) : List Char → Bool
  | [] => charsStartWith pat []
  | c :: rest => charsStartWith pat (c :: rest) || charsContain pat rest

-- ===========================================================================
-- parsePLFromUsername (src/routes/auth.js lines 71-84)
-- ===========================================================================

/-- `parsePLFromUsername(username)`: reject non-strings and falsy input,
`trim` then `split('/')`; fewer than two parts is invalid; the PL is
`parts[1].trim()`, with an empty result coerced to invalid (`pl || null`). -/
def parsePLFromUsername (username : String) : Option String :=
  if username = "" then none
  else
    let parts := jsSplit '/' (jsTrim username)
    if parts.length < 2 then none
    else
      let pl := jsTrim (parts[1]?.getD "")
      if pl = "" then none else some pl

-- ===========================================================================
-- Internetclients rows and fetchUserByPL (src/routes/auth.js lines 91-116)
-- ===========================================================================

/-- One row of the external `Internetclients` table.  `Phone` is a stored
column of the table (the spec's "stored contact phone number"); whether a
query sees it depends on that query's SELECT list. -/
structure UserRow where
  URid : Nat
  UserName : String
  Passcode : Option String
  Title : Option String
  Surname : Option String
  OtherNames : Option String
  Email : Option String
  ResetOTPHash : Option String
  ResetOTPExpiresAt : Option Int
  Phone : Option String
deriving Repr, DecidableEq

/-- The row object produced by `fetchUserByPL`.  Its fields mirror exactly the
SELECT list at src/routes/auth.js lines 94-107: `URid, UserName, Passcode,
Title, Surname, OtherNames, Email, ResetOTPHash, ResetOTPExpiresAt`.
`Phone` is NOT in that SELECT list, so on the JS object `user.Phone` is
`undefined`; we keep the field and force it to `none` in `toFetched`. -/
structure FetchedUser where
  URid : Nat
  UserName : String
  Passcode : Option String
  Title : Option String
  Surname : Option String
  OtherNames : Option String
  Email : Option String
  ResetOTPHash : Option String
  ResetOTPExpiresAt : Option Int
  Phone : Option String
deriving Repr, DecidableEq

/-- SQL `LIKE '%pat%'` containment test (the pattern `%/<pl>;%` contains no
other wildcard in the flows below). -/
def likeContains (s pat : String) : Bool := charsContain pat.data s.data

/-- Projection of a table row to the object shape `fetchUserByPL` returns:
every selected column is copied, `Phone` is absent (`undefined`). -/
def toFetched (r : UserRow) : FetchedUser :=
  { URid := r.URid, UserName := r.UserName, Passcode := r.Passcode,
    Title := r.Title, Surname := r.Surname, OtherNames := r.OtherNames,
    Email := r.Email, ResetOTPHash := r.ResetOTPHash,
    ResetOTPExpiresAt := r.ResetOTPExpiresAt, Phone := none }

/-- The LIKE pattern row predicate of `fetchUserByPL`. -/
def plPattern (pl : String) (r : UserRow) : Bool :=
  likeContains r.UserName ("/" ++ pl ++ ";")

/-- `fetchUserByPL(pl)`: `WHERE UserName LIKE '%/<pl>;%'`, first row or null,
projected through the SELECT column list (which omits `Phone`). -/
def fetchUserByPL (db : List UserRow) (pl : String) : Option FetchedUser :=
  (db.find? (plPattern pl)).map toFetched

-- ===========================================================================
-- POST /api/auth/login (src/routes/auth.js lines 128-251)
-- ===========================================================================

/-- The distinct terminal responses of the login handler, one constructor per
`return res...json(...)` site (the 500 catch-all is out of scope: the store
is modelled as total). -/
inductive LoginResult where
  /-- 400 `Username and passcode are required` -/
  | missingFields
  /-- 400 `Invalid username format. Expected: IPPIS/PL` -/
  | badUsernameFormat
  /-- 429 `Too many failed attempts. Try again in 15 minutes.` -/
  | lockedOut
  /-- 401 `Invalid credentials` with `attemptsRemaining` -/
  | invalidCredentials (attemptsRemaining : Int)
  /-- 401 `Account not activated. Please contact support.` -/
  | notActivated
  /-- 200 with a JWT for `{odUserId, pl}` -/
  | success (odUserId : Nat) (pl : String)
deriving Repr, DecidableEq

/-- `attemptsRemaining` computation of the two failure branches:
`remaining = MAX_ATTEMPTS - getFailedAttempts(pl)` (after the increment),
sent as `remaining > 0 ? remaining : 0`. -/
def attemptsRemainingOf (cnt : Nat) : Int :=
  let remaining : Int := (MAX_ATTEMPTS : Int) - (cnt : Int)
  if 0 < remaining then remaining else 0

/-- The login handler.  `cmp` stands for `bcrypt.compare`; `now` is the
request time; `db` the `Internetclients` rows; `st` the shared
`failedAttempts` map; `username`/`passcode` the request body fields.
Returns the response and the updated `failedAttempts` map. -/
def login (cmp : String → String → Bool) (now : Int) (db : List UserRow)
    (st : FailedMap) (username passcode : Option String) :
    LoginResult × FailedMap :=
  if falsy username || falsy passcode then (.missingFields, st)
  else
    match parsePLFromUsername (username.getD "") with
    | none => (.badUsernameFormat, st)
    | some pl =>
      let blk := isBlocked now st pl
      if blk.1 then (.lockedOut, blk.2)
      else
        match fetchUserByPL db pl with
        | none =>
          let st2 := incrementFailedAttempts now blk.2 pl
          let res := getFailedAttempts now st2 pl
          (.invalidCredentials (attemptsRemainingOf res.1), res.2)
        | some user =>
          if falsy user.Passcode then (.notActivated, blk.2)
          else if cmp (passcode.getD "") (user.Passcode.getD "") then
            (.success user.URid pl, resetFailedAttempts blk.2 pl)
          else
            let st2 := incrementFailedAttempts now blk.2 pl
            let res := getFailedAttempts now st2 pl
            (.invalidCredentials (attemptsRemainingOf res.1), res.2)

-- ===========================================================================
-- POST /api/auth/forgot-passcode (src/routes/auth.js lines 421-541)
-- ===========================================================================

/-- `OTP_EXPIRY_MINUTES = 10`. -/
def OTP_EXPIRY_MINUTES : Int := 10

/-- Modelled from the spec: `src/services/email.js` (the `sendOTPEmail` /
`sendPasscodeResetConfirmation` notification channel) is not among the
provided sources.  Spec section 6: "Notification channel:
`send(address, subject, body) → success|failure`; failures are logged, never
thrown back into the flow's response."  We model a send as consuming an
externally chosen outcome and never raising; the handler ignores it. -/
def sendOTPEmail (outcome : Bool) : Bool := outcome

/-- The distinct terminal responses of the forgot-passcode handler. -/
inductive ForgotResult where
  /-- 400 `Username is required` -/
  | missingUsername
  /-- 400 `Invalid username format` -/
  | badUsernameFormat
  /-- 429 `Too many requests. Please try again in <waitTime> minutes.` -/
  | rateLimited (waitTime : Int)
  /-- 200 `If the account exists, a reset code has been sent.`  The source
  returns this same literal body at lines 469-472 (no record), 480-483
  (record without email) and 528-531 (OTP issued). -/
  | genericOk
deriving Repr, DecidableEq

/-- Replace the columns of every row with the given `URid`
(`UPDATE ... WHERE URid = @odUserId`). -/
def updateRow (db : List UserRow) (id : Nat) (f : UserRow → UserRow) :
    List UserRow :=
  db.map (fun r => if r.URid = id then f r else r)

/-- The forgot-passcode handler.  `hash` stands for `bcrypt.hash`; `otp` is
the freshly generated 6-digit code (randomness externalized);
`sendOutcome` is the notification channel's outcome for this request.
Returns the response, the updated rows, the updated rate-limit map, and the
send outcome when a notification was attempted (`none` when it was not). -/
def forgotPasscode (hash : String → String) (now : Int) (otp : String)
    (db : List UserRow) (rl : ResendMap) (username : Option String)
    (sendOutcome : Bool) :
    ForgotResult × List UserRow × ResendMap × Option Bool :=
  if falsy username then (.missingUsername, db, rl, none)
  else
    match parsePLFromUsername (username.getD "") with
    | none => (.badUsernameFormat, db, rl, none)
    | some pl =>
      let gate := canResend now rl pl
      if ¬ gate.1.canResend then
        (.rateLimited gate.1.waitTime, db, gate.2, none)
      else
        let rl2 := incrementResendCount now gate.2 pl
        match fetchUserByPL db pl with
        | none => (.genericOk, db, rl2, none)
        | some user =>
          if falsy user.Email then (.genericOk, db, rl2, none)
          else
            let otpHash := hash otp
            let expiresAt := now + OTP_EXPIRY_MINUTES * 60 * 1000
            let db2 := updateRow db user.URid (fun r =>
              { r with ResetOTPHash := some otpHash,
                       ResetOTPExpiresAt := some expiresAt })
            (.genericOk, db2, rl2, some (sendOTPEmail sendOutcome))

-- ===========================================================================
-- POST /api/auth/verify-otp (src/routes/auth.js lines 564-716)
-- ===========================================================================

/-- The OTP format gate: `/^\d{6}$/`. -/
def otpFormatOk (s : String) : Bool :=
  s.length == 6 && s.data.all Char.isDigit

/-- The distinct terminal responses of the verify-otp handler. -/
inductive VerifyOtpResult where
  /-- 400 `Username, OTP, and new passcode are required` -/
  | missingFields
  /-- 400 `Invalid username format` -/
  | badUsernameFormat
  /-- 400 `Invalid OTP format. Must be 6 digits.` -/
  | badOtpFormat
  /-- 400 `New passcode must be at least 6 characters` -/
  | weakPasscode
  /-- 400 `Invalid OTP or account not found` -/
  | accountNotFound
  /-- 400 `No reset request found. Please request a new OTP.` -/
  | noResetRequest
  /-- 400 `OTP has expired. Please request a new one.` -/
  | otpExpired
  /-- 400 `Invalid OTP` -/
  | invalidOtp
  /-- 400 `New passcode cannot be your phone number` -/
  | passcodeIsPhone
  /-- 200 `Passcode reset successfully. ...` -/
  | success
deriving Repr, DecidableEq

/-- JS truthiness guard `user.Phone && newPasscode === user.Phone` on the
fetched row object. -/
def phoneEqGuard (phone : Option String) (np : String) : Bool :=
  match phone with
  | none => false
  | some ph => ph != "" && np == ph

/-- The verify-otp handler.  `cmp` stands for `bcrypt.compare`, `hash` for
`bcrypt.hash`.  Note `new Date(user.ResetOTPExpiresAt)` of a NULL column is
the epoch, hence the `getD 0`.  Returns the response and the updated rows. -/
def verifyOtp (cmp : String → String → Bool) (hash : String → String)
    (now : Int) (db : List UserRow)
    (username otp newPasscode : Option String) :
    VerifyOtpResult × List UserRow :=
  if falsy username || falsy otp || falsy newPasscode then
    (.missingFields, db)
  else
    match parsePLFromUsername (username.getD "") with
    | none => (.badUsernameFormat, db)
    | some pl =>
      let otpS := otp.getD ""
      let np := newPasscode.getD ""
      if ¬ otpFormatOk otpS then (.badOtpFormat, db)
      else if np.length < 6 then (.weakPasscode, db)
      else
        match fetchUserByPL db pl with
        | none => (.accountNotFound, db)
        | some user =>
          if falsy user.ResetOTPHash then (.noResetRequest, db)
          else
            let expiresAt : Int := user.ResetOTPExpiresAt.getD 0
            if expiresAt < now then
              (.otpExpired,
               updateRow db user.URid (fun r =>
                 { r with ResetOTPHash := none, ResetOTPExpiresAt := none }))
            else if ¬ cmp otpS (user.ResetOTPHash.getD "") then
              (.invalidOtp, db)
            else if phoneEqGuard user.Phone np then
              (.passcodeIsPhone, db)
            else
              (.success,
               updateRow db user.URid (fun r =>
                 { r with Passcode := some (hash np),
                          ResetOTPHash := none,
                          ResetOTPExpiresAt := none }))

-- ===========================================================================
-- Iterated-call combinators used by the timing claims
-- ===========================================================================

/-- `chainedB prev ts`: every time in `ts` follows its predecessor (starting
from `prev`) by at most `RESET_TIME` — consecutive attempts inside the
lockout window. -/
def chainedB : Int → List Int → Bool
  | _, [] => true
  | prev, t :: ts => decide (t - prev ≤ RESET_TIME) && chainedB t ts

/-- Run the login handler once per listed time, threading the
`failedAttempts` map (the request body and DB are fixed). -/
def loginTrace (cmp : String → String → Bool) (db : List UserRow)
    (username passcode : Option String) (st : FailedMap)
    (ts : List Int) : FailedMap :=
  ts.foldl (fun s t => (login cmp t db s username passcode).2) st

/-- Run `incrementResendCount` once per listed time. -/
def resendTrace (pl : String) (m : ResendMap) (ts : List Int) : ResendMap :=
  ts.foldl (fun m2 t => incrementResendCount t m2 pl) m

/-- `withinWindowB t1 ts`: every time in `ts` is at most `RESEND_WINDOW`
after the window start `t1`. -/
def withinWindowB (t1 : Int) (ts : List Int) : Bool :=
  ts.all (fun t => decide (t - t1 ≤ RESEND_WINDOW))

/-- Modelled from the spec (claim C9's amended sentence, and spec section
4.1): the identifier of a handle is the trimmed second `/`-separated segment
of the trimmed handle; a handle with fewer than two segments, or whose second
segment trims to empty, is invalid. -/
def identifierOfHandle (handle : String) : Option String :=
  match jsSplit '/' (jsTrim handle) with
  | _ :: second :: _ =>
    let id := jsTrim second
    if id = "" then none else some id
  | _ => none

-- ===========================================================================
-- Concrete fixtures for witnesses and counterexamples
-- ===========================================================================

/-- A concrete `Internetclients` row: activated member `TI9875/2432` with a
pending reset OTP (stored value `123456` under the identity-hash model,
expiring at 1000) and stored phone number `08012345678`. -/
def demoRow : UserRow :=
  { URid := 1, UserName := "TI9875/2432;member@x.y",
    Passcode := some "goodhash", Title := some "Mr", Surname := some "Doe",
    OtherNames := none, Email := some "member@x.y",
    ResetOTPHash := some "123456", ResetOTPExpiresAt := some 1000,
    Phone := some "08012345678" }

/-- A one-row database. -/
def demoDb : List UserRow := [demoRow]

/-- Concrete stand-in for `bcrypt.compare`: a world where the stored hash is
the plaintext, so comparison is string equality. -/
def eqCmp : String → String → Bool := fun a b => a == b

/-- Concrete stand-in for `bcrypt.hash`. -/
def tagHash : String → String := fun s => "h:" ++ s

-- ===========================================================================
-- Helper lemmas: association-list maps
-- ===========================================================================

theorem mapGet_mapSet_self {α : Type} (m : List (String × α)) (k : String)
    (v : α) : mapGet (mapSet m k v) k = some v := by
  induction m with
  | nil => simp [mapSet, mapGet]
  | cons p t ih =>
    obtain ⟨k2, v2⟩ := p
    by_cases h : k2 = k <;> simp [mapSet, mapGet, h, ih]

theorem mapGet_mapErase_self {α : Type} (m : List (String × α)) (k : String) :
    mapGet (mapErase m k) k = none := by
  induction m with
  | nil => simp [mapErase, mapGet]
  | cons p t ih =>
    obtain ⟨k2, v2⟩ := p
    by_cases h : k2 = k
    · simpa [mapErase, h] using ih
    · simpa [mapErase, mapGet, h] using ih

-- ===========================================================================
-- Helper lemmas: failed-login tracker
-- ===========================================================================

theorem getFailedAttempts_of_none (now : Int) (m : FailedMap) (u : String)
    (h : mapGet m u = none) : getFailedAttempts now m u = (0, m) := by
  unfold getFailedAttempts; rw [h]

theorem getFailedAttempts_of_live (now : Int) (m : FailedMap) (u : String)
    (r : FailedRecord) (h : mapGet m u = some r)
    (hl : ¬ RESET_TIME < now - r.lastAttempt) :
    getFailedAttempts now m u = (r.count, m) := by
  unfold getFailedAttempts; rw [h]; simp [hl]

theorem getFailedAttempts_of_expired (now : Int) (m : FailedMap) (u : String)
    (r : FailedRecord) (h : mapGet m u = some r)
    (hx : RESET_TIME < now - r.lastAttempt) :
    getFailedAttempts now m u = (0, mapErase m u) := by
  unfold getFailedAttempts; rw [h]; simp [hx]

/-- Re-reading immediately after the lazy-expiry cleanup changes nothing:
value and state are stable. -/
theorem getFailedAttempts_idem (now : Int) (m : FailedMap) (u : String) :
    getFailedAttempts now (getFailedAttempts now m u).2 u
      = getFailedAttempts now m u := by
  rcases h : mapGet m u with _ | r
  · rw [getFailedAttempts_of_none now m u h, getFailedAttempts_of_none now m u h]
  · by_cases hx : RESET_TIME < now - r.lastAttempt
    · rw [getFailedAttempts_of_expired now m u r h hx]
      exact getFailedAttempts_of_none now _ u (mapGet_mapErase_self m u)
    · rw [getFailedAttempts_of_live now m u r h hx,
          getFailedAttempts_of_live now m u r h hx]

theorem increment_of_none (now : Int) (m : FailedMap) (u : String)
    (h : mapGet m u = none) :
    incrementFailedAttempts now m u = mapSet m u ⟨1, now⟩ := by
  unfold incrementFailedAttempts
  rw [getFailedAttempts_of_none now m u h]

theorem increment_of_live (now : Int) (m : FailedMap) (u : String)
    (r : FailedRecord) (h : mapGet m u = some r)
    (hl : ¬ RESET_TIME < now - r.lastAttempt) :
    incrementFailedAttempts now m u = mapSet m u ⟨r.count + 1, now⟩ := by
  unfold incrementFailedAttempts
  rw [getFailedAttempts_of_live now m u r h hl]

theorem increment_of_expired (now : Int) (m : FailedMap) (u : String)
    (r : FailedRecord) (h : mapGet m u = some r)
    (hx : RESET_TIME < now - r.lastAttempt) :
    incrementFailedAttempts now m u = mapSet (mapErase m u) u ⟨1, now⟩ := by
  unfold incrementFailedAttempts
  rw [getFailedAttempts_of_expired now m u r h hx]

/-- A freshly written entry is always read back live (`RESET_TIME` is
positive, and the write stamps `lastAttempt := now`). -/
theorem getFailedAttempts_after_set (now : Int) (m : FailedMap) (u : String)
    (c : Nat) :
    getFailedAttempts now (mapSet m u ⟨c, now⟩) u = (c, mapSet m u ⟨c, now⟩) := by
  refine getFailedAttempts_of_live now _ u ⟨c, now⟩ (mapGet_mapSet_self m u _) ?_
  simp [RESET_TIME]

/-- `incrementFailedAttempts` in terms of the tracker read it performs. -/
theorem increment_via_get (now : Int) (m : FailedMap) (u : String) (c : Nat)
    (m2 : FailedMap) (h : getFailedAttempts now m u = (c, m2)) :
    incrementFailedAttempts now m u = mapSet m2 u ⟨c + 1, now⟩ := by
  unfold incrementFailedAttempts; rw [h]

-- ===========================================================================
-- Helper lemmas: login handler branches
-- ===========================================================================

/-- The two failure-accounting branches of the login handler (unknown
identifier, and wrong passcode on an activated record) run the same tail:
record the failure, then answer `invalidCredentials` with
`attemptsRemainingOf` of the fresh count. -/
theorem login_fail_general (cmp : String → String → Bool) (now : Int)
    (db : List UserRow) (st : FailedMap) (username passcode : Option String)
    (pl : String) (c : Nat) (st1 : FailedMap)
    (hu : falsy username = false) (hp : falsy passcode = false)
    (hpl : parsePLFromUsername (username.getD "") = some pl)
    (hget : getFailedAttempts now st pl = (c, st1))
    (hc : c < MAX_ATTEMPTS)
    (hbranch : fetchUserByPL db pl = none ∨
      ∃ usr, fetchUserByPL db pl = some usr ∧ falsy usr.Passcode = false ∧
        cmp (passcode.getD "") (usr.Passcode.getD "") = false) :
    login cmp now db st username passcode =
      (.invalidCredentials (attemptsRemainingOf (c + 1)),
       mapSet st1 pl ⟨c + 1, now⟩) := by
  have hget1 : getFailedAttempts now st1 pl = (c, st1) := by
    have := getFailedAttempts_idem now st pl
    rw [hget] at this
    simpa [hget] using this
  have hinc : incrementFailedAttempts now st1 pl = mapSet st1 pl ⟨c + 1, now⟩ :=
    increment_via_get now st1 pl c st1 hget1
  have hblk : isBlocked now st pl = (false, st1) := by
    unfold isBlocked; rw [hget]
    simp [Nat.not_le.mpr hc]
  unfold login
  rw [hu, hp]
  simp only [Bool.or_self, Bool.false_or, if_neg, Bool.false_eq_true,
    not_false_eq_true]
  rw [hpl]
  simp only [hblk]
  rcases hbranch with hnone | ⟨usr, hsome, hact, hcmp⟩
  · rw [hnone]
    simp only [hinc, getFailedAttempts_after_set]
    simp
  · rw [hsome]
    simp only [hact, hcmp]
    simp only [hinc, getFailedAttempts_after_set]
    simp

/-- When the lockout gate reads a count at `MAX_ATTEMPTS` or above, the
handler answers `lockedOut` no matter the passcode, the comparison function
or the database. -/
theorem login_locked (cmp : String → String → Bool) (now : Int)
    (db : List UserRow) (st : FailedMap) (username passcode : Option String)
    (pl : String)
    (hu : falsy username = false) (hp : falsy passcode = false)
    (hpl : parsePLFromUsername (username.getD "") = some pl)
    (hblk : MAX_ATTEMPTS ≤ (getFailedAttempts now st pl).1) :
    (login cmp now db st username passcode).1 = .lockedOut := by
  unfold login
  rw [hu, hp]
  simp only [Bool.or_self, Bool.false_or, if_neg, Bool.false_eq_true,
    not_false_eq_true]
  rw [hpl]
  simp [isBlocked, decide_eq_true_eq, hblk]

/-- A successful login erases the identifier's lockout entry. -/
theorem login_success_clears (cmp : String → String → Bool) (now : Int)
    (db : List UserRow) (st : FailedMap) (username passcode : Option String)
    (i : Nat) (pl : String)
    (h : (login cmp now db st username passcode).1 = .success i pl) :
    mapGet (login cmp now db st username passcode).2 pl = none := by
  rcases hE : login cmp now db st username passcode with ⟨r, m⟩
  rw [hE] at h
  simp only at h
  simp only
  unfold login at hE
  simp only at hE
  repeat' split at hE
  all_goals rw [Prod.mk.injEq] at hE
  all_goals first
    | (rw [← hE.1] at h
       exact LoginResult.noConfusion h)
    | (obtain ⟨h1, h2⟩ := hE
       rw [← h1] at h
       simp only [LoginResult.success.injEq] at h
       rw [← h2, ← h.2]
       simpa [resetFailedAttempts] using mapGet_mapErase_self _ _)

-- ===========================================================================
-- Helper lemmas: iterated failed logins
-- ===========================================================================

/-- Invariant of a run of consecutive failed logins (wrong passcode against
an activated record): starting from a live entry `⟨c, prev⟩` and attempt
times each within `RESET_TIME` of the previous one, the entry after the run
is `⟨c + length, last time⟩` — the counter grows by one per attempt and
never resets. -/
theorem loginTrace_counts (cmp : String → String → Bool) (db : List UserRow)
    (username passcode : Option String) (pl : String) (usr : FetchedUser)
    (hu : falsy username = false) (hp : falsy passcode = false)
    (hpl : parsePLFromUsername (username.getD "") = some pl)
    (hfetch : fetchUserByPL db pl = some usr)
    (hact : falsy usr.Passcode = false)
    (hcmp : cmp (passcode.getD "") (usr.Passcode.getD "") = false) :
    ∀ (ts : List Int) (st : FailedMap) (c : Nat) (prev : Int),
      mapGet st pl = some ⟨c, prev⟩ → chainedB prev ts = true →
      c + ts.length ≤ MAX_ATTEMPTS →
      mapGet (loginTrace cmp db username passcode st ts) pl
        = some ⟨c + ts.length, ts.getLastD prev⟩ := by
  intro ts
  induction ts with
  | nil =>
    intro st c prev hst _ _
    simpa [loginTrace] using hst
  | cons t ts ih =>
    intro st c prev hst hch hle
    simp only [chainedB, Bool.and_eq_true, decide_eq_true_eq] at hch
    obtain ⟨hgap, hch2⟩ := hch
    have hc : c < MAX_ATTEMPTS := by
      simp only [List.length_cons] at hle; omega
    have hget : getFailedAttempts t st pl = (c, st) :=
      getFailedAttempts_of_live t st pl ⟨c, prev⟩ hst (Int.not_lt.mpr hgap)
    have hstep := login_fail_general cmp t db st username passcode pl c st
      hu hp hpl hget hc (Or.inr ⟨usr, hfetch, hact, hcmp⟩)
    have htr : loginTrace cmp db username passcode st (t :: ts)
        = loginTrace cmp db username passcode (mapSet st pl ⟨c + 1, t⟩) ts := by
      simp [loginTrace, hstep]
    rw [htr]
    have hrec := ih (mapSet st pl ⟨c + 1, t⟩) (c + 1) t
      (mapGet_mapSet_self st pl _) hch2
      (by simp only [List.length_cons] at hle; omega)
    rw [hrec]
    have hlen : c + (t :: ts).length = c + 1 + ts.length := by
      simp [List.length_cons]; omega
    rw [List.getLastD_cons, hlen]

-- ===========================================================================
-- Claim theorems
-- ===========================================================================

/-- C10: a login request whose username or passcode is absent or empty is
rejected with the required-fields validation error, with the
`failedAttempts` state returned unchanged — for every database and every
tracker state (including a locked-out one), so the rejection happens before
the lockout gate and before any store lookup, and never counts toward
lockout. -/
theorem login_missingFieldsRejectedEarly (cmp : String → String → Bool)
    (now : Int) (db : List UserRow) (st : FailedMap)
    (username passcode : Option String)
    (h : falsy username = true ∨ falsy passcode = true) :
    login cmp now db st username passcode = (.missingFields, st) := by
  unfold login
  rcases h with h | h <;> simp [h]

theorem login_missingFieldsRejectedEarly_witness :
    login eqCmp 0 demoDb [("2432", (⟨7, 0⟩ : FailedRecord))]
        (some "TI9875/2432") (some "")
      = (.missingFields, [("2432", (⟨7, 0⟩ : FailedRecord))]) :=
  login_missingFieldsRejectedEarly eqCmp 0 demoDb _ _ _ (Or.inr (by decide))

/-- C6: a failure recorded at `t1`, a gap longer than `RESET_TIME`, then a
failure recorded at `t2`: the counter read after the second failure is 1,
not 2 — the expired window restarts counting at 1. -/
theorem failedAttempts_windowRestart (st : FailedMap) (pl : String)
    (t1 t2 : Int) (h0 : mapGet st pl = none)
    (hgap : RESET_TIME < t2 - t1) :
    (getFailedAttempts t2
       (incrementFailedAttempts t2 (incrementFailedAttempts t1 st pl) pl)
       pl).1 = 1 := by
  have h1 : incrementFailedAttempts t1 st pl = mapSet st pl ⟨1, t1⟩ :=
    increment_via_get t1 st pl 0 st (getFailedAttempts_of_none t1 st pl h0)
  have h2 : getFailedAttempts t2 (mapSet st pl ⟨1, t1⟩) pl
      = (0, mapErase (mapSet st pl ⟨1, t1⟩) pl) :=
    getFailedAttempts_of_expired t2 _ pl ⟨1, t1⟩
      (mapGet_mapSet_self st pl _) hgap
  have h3 : incrementFailedAttempts t2 (mapSet st pl ⟨1, t1⟩) pl
      = mapSet (mapErase (mapSet st pl ⟨1, t1⟩) pl) pl ⟨1, t2⟩ :=
    increment_via_get t2 _ pl 0 _ h2
  rw [h1, h3, getFailedAttempts_after_set]

theorem failedAttempts_windowRestart_witness :
    (getFailedAttempts 900001
       (incrementFailedAttempts 900001 (incrementFailedAttempts 0 [] "2432")
          "2432") "2432").1 = 1 :=
  failedAttempts_windowRestart [] "2432" 0 900001 (by decide) (by decide)

/-- C7: for a well-formed, non-locked identifier, the unknown-identifier
branch and the wrong-passcode branch of login run the same accounting:
both record a failure (entry `⟨c+1, now⟩`) and reject with
`invalidCredentials` whose `attemptsRemaining` is `MAX_ATTEMPTS` minus the
post-increment count, floored at 0. -/
theorem login_unknownIdentifierAccounting (cmp : String → String → Bool)
    (now : Int) (db : List UserRow) (st : FailedMap)
    (username passcode : Option String) (pl : String) (c : Nat)
    (st1 : FailedMap)
    (hu : falsy username = false) (hp : falsy passcode = false)
    (hpl : parsePLFromUsername (username.getD "") = some pl)
    (hget : getFailedAttempts now st pl = (c, st1))
    (hc : c < MAX_ATTEMPTS) :
    (fetchUserByPL db pl = none →
       login cmp now db st username passcode =
         (.invalidCredentials (attemptsRemainingOf (c + 1)),
          mapSet st1 pl ⟨c + 1, now⟩))
    ∧ (∀ usr, fetchUserByPL db pl = some usr → falsy usr.Passcode = false →
         cmp (passcode.getD "") (usr.Passcode.getD "") = false →
         login cmp now db st username passcode =
           (.invalidCredentials (attemptsRemainingOf (c + 1)),
            mapSet st1 pl ⟨c + 1, now⟩))
    ∧ attemptsRemainingOf (c + 1) = max 0 ((MAX_ATTEMPTS : Int) - (c + 1))
    ∧ (getFailedAttempts now (mapSet st1 pl ⟨c + 1, now⟩) pl).1 = c + 1 := by
  refine ⟨?_, ?_, ?_, ?_⟩
  · intro hnone
    exact login_fail_general cmp now db st username passcode pl c st1
      hu hp hpl hget hc (Or.inl hnone)
  · intro usr hsome hact hcmp
    exact login_fail_general cmp now db st username passcode pl c st1
      hu hp hpl hget hc (Or.inr ⟨usr, hsome, hact, hcmp⟩)
  · simp only [attemptsRemainingOf]
    split <;> omega
  · rw [getFailedAttempts_after_set]

theorem login_unknownIdentifierAccounting_witness :
    (fetchUserByPL [] "2432" = none →
       login eqCmp 5 [] [] (some "TI9875/2432") (some "secret7") =
         (.invalidCredentials (attemptsRemainingOf 1),
          mapSet [] "2432" ⟨1, 5⟩))
    ∧ (∀ usr, fetchUserByPL [] "2432" = some usr →
         falsy usr.Passcode = false →
         eqCmp ((some "secret7").getD "") (usr.Passcode.getD "") = false →
         login eqCmp 5 [] [] (some "TI9875/2432") (some "secret7") =
           (.invalidCredentials (attemptsRemainingOf 1),
            mapSet [] "2432" ⟨1, 5⟩))
    ∧ attemptsRemainingOf 1 = max 0 ((MAX_ATTEMPTS : Int) - 1)
    ∧ (getFailedAttempts 5 (mapSet [] "2432" ⟨1, 5⟩) "2432").1 = 1 :=
  login_unknownIdentifierAccounting eqCmp 5 [] [] (some "TI9875/2432")
    (some "secret7") "2432" 0 [] (by decide) (by decide) (by decide)
    (by decide) (by decide)

/-- C8: a login against an existing record with no stored passcode hash is
rejected `notActivated`, and the identifier's failure counter reads the
same before and after the attempt — the attempt is not counted, unlike the
not-found and wrong-passcode branches. -/
theorem login_notActivatedNoCount (cmp : String → String → Bool) (now : Int)
    (db : List UserRow) (st : FailedMap) (username passcode : Option String)
    (pl : String) (usr : FetchedUser)
    (hu : falsy username = false) (hp : falsy passcode = false)
    (hpl : parsePLFromUsername (username.getD "") = some pl)
    (hblk : (isBlocked now st pl).1 = false)
    (hfetch : fetchUserByPL db pl = some usr)
    (hact : falsy usr.Passcode = true) :
    (login cmp now db st username passcode).1 = .notActivated ∧
    (getFailedAttempts now (login cmp now db st username passcode).2 pl).1
      = (getFailedAttempts now st pl).1 := by
  have hB : isBlocked now st pl = (false, (getFailedAttempts now st pl).2) := by
    unfold isBlocked at hblk ⊢
    simp only at hblk ⊢
    rw [hblk]
  have hpair : login cmp now db st username passcode
      = (.notActivated, (getFailedAttempts now st pl).2) := by
    unfold login
    rw [hu, hp]
    simp only [Bool.or_self, Bool.false_or, if_neg, Bool.false_eq_true,
      not_false_eq_true]
    rw [hpl]
    simp only [hB]
    rw [hfetch]
    simp [hact]
  rw [hpair]
  refine ⟨rfl, ?_⟩
  simp only
  rw [getFailedAttempts_idem]

theorem login_notActivatedNoCount_witness :
    (login eqCmp 0
        [{ demoRow with Passcode := none }] [("2432", (⟨3, 0⟩ : FailedRecord))]
        (some "TI9875/2432") (some "secret7")).1 = .notActivated ∧
    (getFailedAttempts 0
        (login eqCmp 0 [{ demoRow with Passcode := none }]
           [("2432", (⟨3, 0⟩ : FailedRecord))]
           (some "TI9875/2432") (some "secret7")).2 "2432").1
      = (getFailedAttempts 0 [("2432", (⟨3, 0⟩ : FailedRecord))] "2432").1 :=
  login_notActivatedNoCount eqCmp 0 [{ demoRow with Passcode := none }]
    [("2432", (⟨3, 0⟩ : FailedRecord))] (some "TI9875/2432") (some "secret7")
    "2432" (toFetched { demoRow with Passcode := none })
    (by decide) (by decide) (by decide) (by decide) (by decide) (by decide)

/-- C3: (1) starting from an identifier with no tracker entry, exactly
`MAX_ATTEMPTS` consecutive failed logins (wrong passcode, each within
`RESET_TIME` of the previous attempt) lock the identifier: any further
login attempt within the window — with any passcode, any comparison
function (so in particular the correct passcode) and any database — is
rejected `lockedOut`; (2) immediately after any successful login the
identifier's failure counter reads 0. -/
theorem loginLockoutAfterMaxAttempts :
    (∀ (cmp : String → String → Bool) (db : List UserRow)
       (username wrongPasscode : Option String) (pl : String)
       (usr : FetchedUser) (t1 : Int) (rest : List Int)
       (cmp2 : String → String → Bool) (db2 : List UserRow)
       (passcode2 : Option String) (t8 : Int) (st0 : FailedMap),
       falsy username = false → falsy wrongPasscode = false →
       falsy passcode2 = false →
       parsePLFromUsername (username.getD "") = some pl →
       fetchUserByPL db pl = some usr → falsy usr.Passcode = false →
       cmp (wrongPasscode.getD "") (usr.Passcode.getD "") = false →
       mapGet st0 pl = none →
       rest.length + 1 = MAX_ATTEMPTS →
       chainedB t1 rest = true →
       t8 - (t1 :: rest).getLastD 0 ≤ RESET_TIME →
       (login cmp2 t8 db2
          (loginTrace cmp db username wrongPasscode st0 (t1 :: rest))
          username passcode2).1 = .lockedOut)
    ∧ (∀ (cmp : String → String → Bool) (now : Int) (db : List UserRow)
         (st : FailedMap) (username passcode : Option String) (i : Nat)
         (pl : String) (t2 : Int),
         (login cmp now db st username passcode).1 = .success i pl →
         (getFailedAttempts t2
            (login cmp now db st username passcode).2 pl).1 = 0) := by
  constructor
  · intro cmp db username wrongPasscode pl usr t1 rest cmp2 db2 passcode2 t8
      st0 hu hw hp2 hpl hfetch hact hcmp h0 hlen hch hlast
    have hget0 : getFailedAttempts t1 st0 pl = (0, st0) :=
      getFailedAttempts_of_none t1 st0 pl h0
    have hstep := login_fail_general cmp t1 db st0 username wrongPasscode pl
      0 st0 hu hw hpl hget0 (by simp [MAX_ATTEMPTS])
      (Or.inr ⟨usr, hfetch, hact, hcmp⟩)
    have htr : loginTrace cmp db username wrongPasscode st0 (t1 :: rest)
        = loginTrace cmp db username wrongPasscode
            (mapSet st0 pl ⟨1, t1⟩) rest := by
      simp [loginTrace, hstep]
    have hfinal := loginTrace_counts cmp db username wrongPasscode pl usr
      hu hw hpl hfetch hact hcmp rest (mapSet st0 pl ⟨1, t1⟩) 1 t1
      (mapGet_mapSet_self st0 pl _) hch (by omega)
    have hlastEq : (t1 :: rest).getLastD 0 = rest.getLastD t1 :=
      List.getLastD_cons _ _ _
    rw [hlastEq] at hlast
    refine login_locked cmp2 t8 db2 _ username passcode2 pl hu hp2 hpl ?_
    rw [htr]
    have hlive := getFailedAttempts_of_live t8
      (loginTrace cmp db username wrongPasscode (mapSet st0 pl ⟨1, t1⟩) rest)
      pl ⟨1 + rest.length, rest.getLastD t1⟩ hfinal
      (Int.not_lt.mpr hlast)
    rw [hlive]
    show MAX_ATTEMPTS ≤ 1 + rest.length
    omega
  · intro cmp now db st username passcode i pl t2 h
    have hclear := login_success_clears cmp now db st username passcode i pl h
    rw [getFailedAttempts_of_none t2 _ pl hclear]

theorem loginLockoutAfterMaxAttempts_witness :
    (login eqCmp 10 demoDb
        (loginTrace eqCmp demoDb (some "TI9875/2432") (some "wrongpass") []
           [0, 1, 2, 3, 4, 5, 6])
        (some "TI9875/2432") (some "goodhash")).1 = .lockedOut :=
  loginLockoutAfterMaxAttempts.1 eqCmp demoDb (some "TI9875/2432")
    (some "wrongpass") "2432" (toFetched demoRow) 0 [1, 2, 3, 4, 5, 6]
    eqCmp demoDb (some "goodhash") 10 []
    (by decide) (by decide) (by decide) (by decide) (by decide) (by decide)
    (by decide) (by decide) (by decide) (by decide) (by decide)

-- ===========================================================================
-- Helper lemmas: recovery rate limiter
-- ===========================================================================

theorem canResend_of_none (now : Int) (rl : ResendMap) (pl : String)
    (h : mapGet rl pl = none) :
    canResend now rl pl = (⟨true, MAX_RESENDS_PER_HOUR, 0⟩, rl) := by
  unfold canResend; rw [h]

theorem canResend_of_expired (now : Int) (rl : ResendMap) (pl : String)
    (r : ResendRecord) (h : mapGet rl pl = some r)
    (hx : RESEND_WINDOW < now - r.windowStart) :
    canResend now rl pl = (⟨true, MAX_RESENDS_PER_HOUR, 0⟩, mapErase rl pl) := by
  unfold canResend; rw [h]; simp [hx]

theorem canResend_of_live (now : Int) (rl : ResendMap) (pl : String)
    (r : ResendRecord) (h : mapGet rl pl = some r)
    (hl : ¬ RESEND_WINDOW < now - r.windowStart) :
    canResend now rl pl =
      (⟨decide (0 < MAX_RESENDS_PER_HOUR - (r.count : Int)),
        max 0 (MAX_RESENDS_PER_HOUR - (r.count : Int)),
        jsCeilDiv (r.windowStart + RESEND_WINDOW - now) 60000⟩, rl) := by
  unfold canResend; rw [h]; simp [hl]

theorem incResend_of_none (now : Int) (rl : ResendMap) (pl : String)
    (h : mapGet rl pl = none) :
    incrementResendCount now rl pl = mapSet rl pl ⟨1, now⟩ := by
  unfold incrementResendCount; rw [h]

theorem incResend_of_live (now : Int) (rl : ResendMap) (pl : String)
    (r : ResendRecord) (h : mapGet rl pl = some r)
    (hl : ¬ RESEND_WINDOW < now - r.windowStart) :
    incrementResendCount now rl pl = mapSet rl pl ⟨r.count + 1, r.windowStart⟩ := by
  unfold incrementResendCount; rw [h]; simp [hl]

/-- Any run of `incrementResendCount` calls all within `RESEND_WINDOW` of
the window start `t1` keeps the entry's `windowStart` anchored at `t1` (the
count only grows). -/
theorem resendTrace_keeps_window (pl : String) (t1 : Int) :
    ∀ (ts : List Int) (m : ResendMap) (c : Nat),
      mapGet m pl = some ⟨c, t1⟩ → withinWindowB t1 ts = true →
      ∃ c2 : Nat, mapGet (resendTrace pl m ts) pl = some ⟨c2, t1⟩ := by
  intro ts
  induction ts with
  | nil =>
    intro m c h _
    exact ⟨c, by simpa [resendTrace] using h⟩
  | cons t ts ih =>
    intro m c h hw
    simp only [withinWindowB, List.all_cons, Bool.and_eq_true,
      decide_eq_true_eq] at hw
    obtain ⟨ht, hw2⟩ := hw
    have hstep : incrementResendCount t m pl = mapSet m pl ⟨c + 1, t1⟩ :=
      incResend_of_live t m pl ⟨c, t1⟩ h (Int.not_lt.mpr ht)
    have htr : resendTrace pl m (t :: ts)
        = resendTrace pl (mapSet m pl ⟨c + 1, t1⟩) ts := by
      simp [resendTrace, hstep]
    rw [htr]
    exact ih (mapSet m pl ⟨c + 1, t1⟩) (c + 1) (mapGet_mapSet_self m pl _)
      (by simpa [withinWindowB] using hw2)

/-- C5: (1) a never-seen identifier is allowed with the full quota of 3;
(2) three `recordRequest`s inside the hour exhaust the quota: a further
check inside the window is not allowed; (3) once `RESEND_WINDOW` has
elapsed from the original `windowStart`, the check is allowed with full
quota 3 again, no matter how many further requests were recorded inside
the window in between. -/
theorem canResendQuotaLifecycle :
    (∀ (now : Int) (rl : ResendMap) (pl : String),
       mapGet rl pl = none →
       (canResend now rl pl).1 = ⟨true, MAX_RESENDS_PER_HOUR, 0⟩)
    ∧ (∀ (rl : ResendMap) (pl : String) (t1 t2 t3 t4 : Int),
       mapGet rl pl = none →
       t2 - t1 ≤ RESEND_WINDOW → t3 - t1 ≤ RESEND_WINDOW →
       t4 - t1 ≤ RESEND_WINDOW →
       (canResend t4
          (incrementResendCount t3 (incrementResendCount t2
             (incrementResendCount t1 rl pl) pl) pl) pl).1.canResend = false)
    ∧ (∀ (rl : ResendMap) (pl : String) (t1 : Int) (ts : List Int) (T : Int),
       mapGet rl pl = none → withinWindowB t1 ts = true →
       RESEND_WINDOW < T - t1 →
       (canResend T (resendTrace pl (incrementResendCount t1 rl pl) ts)
          pl).1 = ⟨true, MAX_RESENDS_PER_HOUR, 0⟩) := by
  refine ⟨?_, ?_, ?_⟩
  · intro now rl pl h
    rw [canResend_of_none now rl pl h]
  · intro rl pl t1 t2 t3 t4 h0 h2 h3 h4
    have m1 : incrementResendCount t1 rl pl = mapSet rl pl ⟨1, t1⟩ :=
      incResend_of_none t1 rl pl h0
    have m2 : incrementResendCount t2 (mapSet rl pl ⟨1, t1⟩) pl
        = mapSet (mapSet rl pl ⟨1, t1⟩) pl ⟨2, t1⟩ :=
      incResend_of_live t2 _ pl ⟨1, t1⟩ (mapGet_mapSet_self rl pl _)
        (Int.not_lt.mpr h2)
    have m3 : incrementResendCount t3 (mapSet (mapSet rl pl ⟨1, t1⟩) pl ⟨2, t1⟩) pl
        = mapSet (mapSet (mapSet rl pl ⟨1, t1⟩) pl ⟨2, t1⟩) pl ⟨3, t1⟩ :=
      incResend_of_live t3 _ pl ⟨2, t1⟩ (mapGet_mapSet_self _ pl _)
        (Int.not_lt.mpr h3)
    rw [m1, m2, m3,
      canResend_of_live t4 _ pl ⟨3, t1⟩ (mapGet_mapSet_self _ pl _)
        (Int.not_lt.mpr h4)]
    show decide ((0 : Int) < MAX_RESENDS_PER_HOUR - ((3 : Nat) : Int)) = false
    decide
  · intro rl pl t1 ts T h0 hw hT
    have m1 : incrementResendCount t1 rl pl = mapSet rl pl ⟨1, t1⟩ :=
      incResend_of_none t1 rl pl h0
    rw [m1]
    obtain ⟨c2, hc2⟩ := resendTrace_keeps_window pl t1 ts
      (mapSet rl pl ⟨1, t1⟩) 1 (mapGet_mapSet_self rl pl _) hw
    rw [canResend_of_expired T _ pl ⟨c2, t1⟩ hc2 hT]

theorem canResendQuotaLifecycle_witness :
    (canResend 100
       (resendTrace "2432" (incrementResendCount 0 [] "2432") [10, 20, 30, 40])
       "2432").1.canResend = false
    ∧ (canResend 3600001
        (resendTrace "2432" (incrementResendCount 0 [] "2432") [10, 20, 30, 40])
        "2432").1 = ⟨true, MAX_RESENDS_PER_HOUR, 0⟩ :=
  ⟨by decide,
   canResendQuotaLifecycle.2.2 [] "2432" 0 [10, 20, 30, 40] 3600001
     (by decide) (by decide) (by decide)⟩

/-- C2: once a forgot-passcode request has passed parsing and the rate-limit
gate (the store being modelled as total, i.e. no store error), the response
is the one generic success acknowledgement (the literal body
`If the account exists, a reset code has been sent.` in the source) — for
every database (record present or absent, contact address present or
absent) and for both outcomes of the notification send, which the handler
ignores. -/
theorem forgotPasscode_genericResponse (hash : String → String) (now : Int)
    (otp : String) (db : List UserRow) (rl : ResendMap)
    (username : Option String) (sendOutcome : Bool) (pl : String)
    (hu : falsy username = false)
    (hpl : parsePLFromUsername (username.getD "") = some pl)
    (hgate : (canResend now rl pl).1.canResend = true) :
    (forgotPasscode hash now otp db rl username sendOutcome).1
      = .genericOk := by
  unfold forgotPasscode
  rw [hu]
  simp only [Bool.false_eq_true, not_false_eq_true, if_neg]
  rw [hpl]
  simp only [hgate, not_true, if_neg, not_false_eq_true]
  rcases hf : fetchUserByPL db pl with _ | user
  · rfl
  · by_cases he : falsy user.Email = true <;> simp [he]

theorem forgotPasscode_genericResponse_witness :
    (forgotPasscode tagHash 0 "654321" demoDb [] (some "TI9875/2432")
        false).1 = .genericOk
    ∧ (forgotPasscode tagHash 0 "654321" [] [] (some "TI9875/2432")
        true).1 = .genericOk :=
  ⟨forgotPasscode_genericResponse tagHash 0 "654321" demoDb []
     (some "TI9875/2432") false "2432" (by decide) (by decide) (by decide),
   by decide⟩

-- ===========================================================================
-- Helper lemmas: single-row updates and re-fetch
-- ===========================================================================

/-- `find?` over a database whose rows with a given `URid` were rewritten by
a `UserName`-preserving update: the first match is the updated first match
of the original database. -/
theorem find?_updateRow (db : List UserRow) (pl : String) (row : UserRow)
    (f : UserRow → UserRow) (hname : ∀ r, (f r).UserName = r.UserName)
    (hfind : db.find? (plPattern pl) = some row) :
    (updateRow db row.URid f).find? (plPattern pl) = some (f row) := by
  induction db with
  | nil => simp at hfind
  | cons r t ih =>
    by_cases hp : plPattern pl r = true
    · rw [List.find?_cons_of_pos t hp] at hfind
      have hrow : r = row := by injection hfind
      subst hrow
      simp only [updateRow, List.map_cons, if_pos rfl]
      refine List.find?_cons_of_pos _ ?_
      show likeContains (f r).UserName ("/" ++ pl ++ ";") = true
      rw [hname r]
      exact hp
    · rw [List.find?_cons_of_neg t hp] at hfind
      have hval : ¬ plPattern pl (if r.URid = row.URid then f r else r) = true := by
        by_cases hid : r.URid = row.URid
        · rw [if_pos hid]
          show ¬ likeContains (f r).UserName ("/" ++ pl ++ ";") = true
          rw [hname r]
          exact hp
        · rw [if_neg hid]
          exact hp
      have := ih hfind
      simp only [updateRow, List.map_cons] at this ⊢
      rw [List.find?_cons_of_neg _ hval]
      exact this

/-- Re-fetching after a `UserName`-preserving single-row update returns the
updated projection of the originally fetched row. -/
theorem fetchUserByPL_after_update (db : List UserRow) (pl : String)
    (row : UserRow) (f : UserRow → UserRow)
    (hname : ∀ r, (f r).UserName = r.UserName)
    (hfind : db.find? (plPattern pl) = some row) :
    fetchUserByPL (updateRow db row.URid f) pl = some (toFetched (f row)) := by
  unfold fetchUserByPL
  rw [find?_updateRow db pl row f hname hfind]
  rfl

/-- C4: a verification attempt against a pending OTP whose expiry has
passed answers `otpExpired` and clears the stored hash and expiry on the
record, so that running the very same verification again (same code, any
later time) answers `noResetRequest` — the stale code cannot be replayed
after detection. -/
theorem verifyOtp_expiredClearsAndNonePending (cmp : String → String → Bool)
    (hash : String → String) (now now2 : Int) (db : List UserRow)
    (username otp newPasscode : Option String) (pl : String) (row : UserRow)
    (hu : falsy username = false) (ho : falsy otp = false)
    (hn : falsy newPasscode = false)
    (hpl : parsePLFromUsername (username.getD "") = some pl)
    (hfmt : otpFormatOk (otp.getD "") = true)
    (hlen : ¬ (newPasscode.getD "").length < 6)
    (hfind : db.find? (plPattern pl) = some row)
    (hhash : falsy row.ResetOTPHash = false)
    (hexp : row.ResetOTPExpiresAt.getD 0 < now) :
    (verifyOtp cmp hash now db username otp newPasscode).1 = .otpExpired
    ∧ (verifyOtp cmp hash now2
         (verifyOtp cmp hash now db username otp newPasscode).2
         username otp newPasscode).1 = .noResetRequest := by
  have hfetch : fetchUserByPL db pl = some (toFetched row) := by
    unfold fetchUserByPL; rw [hfind]; rfl
  have hpair : verifyOtp cmp hash now db username otp newPasscode
      = (.otpExpired,
         updateRow db row.URid (fun r =>
           { r with ResetOTPHash := none, ResetOTPExpiresAt := none })) := by
    unfold verifyOtp
    rw [hu, ho, hn]
    simp only [Bool.or_self, Bool.false_or, if_neg, Bool.false_eq_true,
      not_false_eq_true]
    rw [hpl]
    simp only [hfmt, not_true, Bool.true_eq_false, if_neg,
      not_false_eq_true, if_neg hlen]
    rw [hfetch]
    simp only [toFetched, hhash, Bool.false_eq_true, not_false_eq_true,
      if_neg, if_pos hexp]
  have hfetch2 := fetchUserByPL_after_update db pl row
    (fun r => { r with ResetOTPHash := none, ResetOTPExpiresAt := none })
    (fun r => rfl) hfind
  refine ⟨by rw [hpair], ?_⟩
  rw [hpair]
  simp only
  unfold verifyOtp
  rw [hu, ho, hn]
  simp only [Bool.or_self, Bool.false_or, if_neg, Bool.false_eq_true,
    not_false_eq_true]
  rw [hpl]
  simp only [hfmt, not_true, Bool.true_eq_false, if_neg,
    not_false_eq_true, if_neg hlen]
  rw [hfetch2]
  simp [toFetched, falsy]

theorem verifyOtp_expiredClearsAndNonePending_witness :
    (verifyOtp eqCmp tagHash 2000 demoDb (some "TI9875/2432")
        (some "123456") (some "newpass1")).1 = .otpExpired
    ∧ (verifyOtp eqCmp tagHash 2100
         (verifyOtp eqCmp tagHash 2000 demoDb (some "TI9875/2432")
            (some "123456") (some "newpass1")).2
         (some "TI9875/2432") (some "123456") (some "newpass1")).1
        = .noResetRequest :=
  verifyOtp_expiredClearsAndNonePending eqCmp tagHash 2000 2100 demoDb
    (some "TI9875/2432") (some "123456") (some "newpass1") "2432" demoRow
    (by decide) (by decide) (by decide) (by decide) (by decide) (by decide)
    (by decide) (by decide) (by decide)

/-- C1 (defect witness): `demoRow` stores phone number `08012345678` and has
an otherwise-valid pending OTP (`123456`, unexpired at time 500).  A
verify-otp request submitting that exact phone number as `newPasscode` is
NOT rejected: the handler answers `success` and stores the hash of the
phone number as the new passcode.  The cause is visible in the embedding:
the SELECT list of `fetchUserByPL` (src/routes/auth.js lines 94-107) omits
the `Phone` column, so `toFetched` yields `Phone := none` and the guard
`user.Phone && newPasscode === user.Phone` (line 666) can never fire. -/
theorem verifyOtp_acceptsPhoneAsPasscode :
    demoRow.Phone = some "08012345678"
    ∧ (verifyOtp eqCmp tagHash 500 demoDb (some "TI9875/2432")
         (some "123456") (some "08012345678")).1 = .success
    ∧ (verifyOtp eqCmp tagHash 500 demoDb (some "TI9875/2432")
         (some "123456") (some "08012345678")).2.map UserRow.Passcode
        = [some "h:08012345678"] := by decide

/-- C9 counterexample: for the handle `TI9875/2432/99`, "everything after
the first `/`, trimmed" is `2432/99`, but `parsePLFromUsername` yields only
the second `/`-separated segment `2432`. -/
theorem parsePL_everythingAfterFirstSlash_cex :
    parsePLFromUsername "TI9875/2432/99" = some "2432"
    ∧ parsePLFromUsername "TI9875/2432/99" ≠ some "2432/99" := by decide

/-- C9 (amended): for every handle, `parsePLFromUsername` yields the
trimmed SECOND `/`-separated segment of the trimmed handle (the part
between the first and second `/`), and yields invalid exactly when the
handle has no `/` or that second segment trims to empty
(`identifierOfHandle` spells out the amended sentence). -/
theorem parsePL_eq_secondSegment (handle : String) :
    parsePLFromUsername handle = identifierOfHandle handle := by
  unfold parsePLFromUsername identifierOfHandle
  by_cases h0 : handle = ""
  · subst h0; decide
  · simp only [h0, if_neg, not_false_eq_true]
    rcases hs : jsSplit '/' (jsTrim handle) with _ | ⟨a, rest⟩
    · simp
    · rcases rest with _ | ⟨b, rest2⟩
      · simp
      · simp [List.length_cons]
